import Mathlib

/-!
Verification of `query_lm_studio.py` (an LM Studio completion CLI client).

Shallow embedding of the program:
* `load_settings` models the configuration loader (lines 13-47 of the source),
  reading from an environment `String → Option String`.
* `query_lm_studio` models the completion client (lines 50-110), with the HTTP
  layer's behaviour supplied explicitly as an `HttpBehavior` value.
* `mainRun` models the relevant fragment of `main` (lines 113-177).

Machine-level details of the Python runtime that the source relies on are
modelled explicitly: `pyInt?` models `int(str)` parsing, `pyStrTruthy` models
string truthiness, and the `requests` library's `raise_for_status` (which
raises exactly for status codes in `[400, 599]`) is inlined where the source
calls it.
-/

namespace QueryLmStudio

/-! ## Python runtime helpers -/

/-- Characters that Python's `str.strip()` removes (ASCII whitespace). -/
def isPySpace (c : Char) : Bool :=
  c = ' ' || c = '\t' || c = '\n' || c = '\x0d' || c = '\x0b' || c = '\x0c'

/-- Decimal digit test, as used by Python `int()` (ASCII digits). -/
def isPyDigit (c : Char) : Bool :=
  '0' ≤ c && c ≤ '9'

/-- Numeric value of a decimal digit character. -/
def digVal (c : Char) : Nat :=
  c.toNat - '0'.toNat

/-- Accumulating parser for the digit tail of a Python integer literal:
after an initial digit, each later digit may be preceded by a single
underscore (Python allows `1_000` but rejects `1__0`, `1_` and `_1`). -/
def pyDigitsAux : Nat → List Char → Option Nat
  | acc, [] => some acc
  | acc, '_' :: c :: rest =>
      if isPyDigit c then pyDigitsAux (acc * 10 + digVal c) rest else none
  | _, ['_'] => none
  | acc, c :: rest =>
      if isPyDigit c then pyDigitsAux (acc * 10 + digVal c) rest else none

/-- Parse a non-empty digit sequence (with Python underscore rules). -/
def pyNatDigits? : List Char → Option Nat
  | [] => none
  | c :: rest => if isPyDigit c then pyDigitsAux (digVal c) rest else none

/-- Model of Python `int(s)` for a string argument: strip surrounding
whitespace, allow one optional sign, then a digit sequence; `none` models the
`ValueError` raised on any other input. -/
def pyInt? (s : String) : Option Int :=
  let cs := ((s.data.dropWhile isPySpace).reverse.dropWhile isPySpace).reverse
  match cs with
  | '+' :: rest => (pyNatDigits? rest).map Int.ofNat
  | '-' :: rest => (pyNatDigits? rest).map (fun n => -(n : Int))
  | rest => (pyNatDigits? rest).map Int.ofNat

/-- Model of Python `repr` for the plain strings appearing in error messages
(no embedded quotes or escapes): the string surrounded by single quotes. -/
def pyRepr (s : String) : String :=
  "\x27" ++ s ++ "\x27"

/-- Message of the `ValueError` raised by Python `int(s)` on a bad literal. -/
def intValueErrorMsg (s : String) : String :=
  "invalid literal for int() with base 10: " ++ pyRepr s

/-- Python truthiness of an `os.getenv` result: `None` and the empty string
are falsy, every other string is truthy (source line 24: `if not value`). -/
def pyStrTruthy : Option String → Bool
  | none => false
  | some s => s ≠ ""

/-- Substring test (`needle` occurs contiguously in `s`), used to state
whether an error message "includes" an offending value. -/
def strContains (s needle : String) : Bool :=
  s.data.tails.any (fun t => needle.data.isPrefixOf t)

/-! ## Configuration loader (`load_settings`, source lines 13-47) -/

/-- Settings dictionary returned by `load_settings` (source lines 42-47). -/
structure Settings where
  host : String
  port : Int
  model : String
  max_tokens : Int
  deriving DecidableEq, Repr

/-- Environment: what `os.getenv` returns for each variable name. -/
def Env := String → Option String

/-- Outcome of running `load_settings` under a given environment:
either the settings dictionary, or `sys.exit(1)` after printing the listed
messages to stderr, or an exception propagating out unhandled. -/
inductive LoadOutcome where
  | ok (s : Settings)
  | exit (stderr : List String)
  | raised (msg : String)
  deriving DecidableEq, Repr

/-- The three required variable names, in the order the source lists them
(source lines 17-21). -/
def requiredKeys : List String :=
  ["LM_STUDIO_HOST", "LM_STUDIO_PORT", "LM_STUDIO_MODEL"]

/-- Keys whose value is absent or empty (source line 24). -/
def missingKeys (env : Env) : List String :=
  requiredKeys.filter (fun k => !pyStrTruthy (env k))

/-- First stderr line printed when required variables are missing
(source line 26). -/
def missingMsg (missing : List String) : String :=
  "Error: Missing required environment variables: " ++ String.intercalate ", " missing

/-- Second stderr line printed when required variables are missing
(source line 27). -/
def missingHint : String :=
  "Please copy .env.example to .env and configure it."

/-- Stderr line printed when the port is invalid (source line 36), given the
message of the caught `ValueError`. -/
def invalidPortMsg (detail : String) : String :=
  "Error: Invalid LM_STUDIO_PORT - " ++ detail

/-- Message of the `ValueError` raised by the range check (source line 34). -/
def portRangeMsg : String :=
  "Port must be between 1 and 65535"

/-- Model of `load_settings` (source lines 13-47). Reads the three required
variables; if any is absent or empty, prints and exits. Parses the port with
`int()` inside a `try`, re-raising a `ValueError` when it is outside
`[1, 65535]`; either `ValueError` is caught and leads to print-and-exit.
Then parses `LM_STUDIO_MAX_TOKENS` (defaulting the *string* to "100" when the
variable is absent) with `int()` **outside** any `try`: a parse failure there
propagates as an unhandled `ValueError`. -/
def load_settings (env : Env) : LoadOutcome :=
  let missing := missingKeys env
  if missing ≠ [] then
    .exit [missingMsg missing, missingHint]
  else
    let portStr := (env "LM_STUDIO_PORT").getD ""
    match pyInt? portStr with
    | none => .exit [invalidPortMsg (intValueErrorMsg portStr)]
    | some port =>
      if port < 1 ∨ port > 65535 then
        .exit [invalidPortMsg portRangeMsg]
      else
        let mtStr := (env "LM_STUDIO_MAX_TOKENS").getD "100"
        match pyInt? mtStr with
        | none => .raised (intValueErrorMsg mtStr)
        | some mt =>
          .ok { host := (env "LM_STUDIO_HOST").getD ""
                port := port
                model := (env "LM_STUDIO_MODEL").getD ""
                max_tokens := mt }

/-! ## JSON values and the Python operations the client applies to them -/

/-- JSON values, as produced by `response.json()`. -/
inductive JVal where
  | jnull
  | jbool (b : Bool)
  | jnum (n : Int)
  | jstr (s : String)
  | jarr (elems : List JVal)
  | jobj (fields : List (String × JVal))
  deriving Repr

/-- Lookup in a JSON object viewed as a Python dict. `json.loads` resolves a
duplicated key to its last occurrence, hence the reversed search. -/
def jget (fields : List (String × JVal)) (k : String) : Option JVal :=
  (fields.reverse.find? (fun p => p.1 == k)).map (fun p => p.2)

/-- Exceptions the client body can raise, as caught by the four `except`
clauses at source lines 98-110. The catch-all `except Exception` makes
`other` absorb every exception outside the three named `requests` classes. -/
inductive PyExc where
  | connectionError
  | timeout
  | httpError (status : Nat) (text : String)
  | other (msg : String)
  deriving DecidableEq, Repr

/-- Python `key in container` for the values at hand (source line 82):
dict membership for objects, element equality for lists, substring test for
strings, and a `TypeError` for non-containers. -/
def pyContains (v : JVal) (key : String) : Except PyExc Bool :=
  match v with
  | .jobj fields => .ok ((jget fields key).isSome)
  | .jarr xs => .ok (xs.any (fun e => match e with | .jstr s => s == key | _ => false))
  | .jstr s => .ok (strContains s key)
  | .jnum _ => .error (.other ("argument of type " ++ pyRepr "int" ++ " is not iterable"))
  | .jbool _ => .error (.other ("argument of type " ++ pyRepr "bool" ++ " is not iterable"))
  | .jnull => .error (.other ("argument of type " ++ pyRepr "NoneType" ++ " is not iterable"))

/-- Python `container[key]` with a string key (source lines 82-83). -/
def pySubscript (v : JVal) (key : String) : Except PyExc JVal :=
  match v with
  | .jobj fields =>
      match jget fields key with
      | some x => .ok x
      | none => .error (.other ("KeyError: " ++ pyRepr key))
  | .jarr _ => .error (.other "list indices must be integers or slices, not str")
  | .jstr _ => .error (.other "string indices must be integers")
  | _ => .error (.other "object is not subscriptable")

/-- Python `len(v)` (source line 82). -/
def pyLen (v : JVal) : Except PyExc Nat :=
  match v with
  | .jarr xs => .ok xs.length
  | .jobj fields => .ok ((fields.map Prod.fst).dedup.length)
  | .jstr s => .ok s.length
  | _ => .error (.other "object has no len()")

/-- Python `v[0]` on a value known to have positive length (source line 83):
head of a list, first character of a string, `KeyError` for a dict (JSON
object keys are strings, never the integer `0`). -/
def pyIndexZero (v : JVal) : Except PyExc JVal :=
  match v with
  | .jarr (x :: _) => .ok x
  | .jarr [] => .error (.other "list index out of range")
  | .jstr s =>
      match s.data with
      | c :: _ => .ok (.jstr (String.mk [c]))
      | [] => .error (.other "string index out of range")
  | .jobj _ => .error (.other "KeyError: 0")
  | _ => .error (.other "object is not subscriptable")

/-- Python `v.get(key, default)` (source lines 83-84, 89-91): defaulted dict
lookup on objects, `AttributeError` on every other value. -/
def pyGet (v : JVal) (key : String) (default : JVal) : Except PyExc JVal :=
  match v with
  | .jobj fields => .ok ((jget fields key).getD default)
  | _ => .error (.other ("object has no attribute " ++ pyRepr "get"))

/-! ## Completion client (`query_lm_studio`, source lines 50-110) -/

/-- Result dictionary built at source lines 86-93. The fields hold the raw
JSON values found in the response (with their source-level defaults). -/
structure CompletionResult where
  text : JVal
  prompt_tokens : JVal
  completion_tokens : JVal
  total_tokens : JVal
  deriving Repr

/-- Behaviour of the HTTP layer for the single `requests.post` call:
a response (with status code, body text, and the outcome of JSON-decoding the
body), a connection error, a timeout, or any other exception raised during
the call. -/
inductive HttpBehavior where
  | resp (status : Nat) (text : String) (json : Except String JVal)
  | connError
  | timeout
  | exc (msg : String)

/-- JSON body sent in the POST request (source lines 67-73). -/
structure Payload where
  model : String
  prompt : String
  temperature : Rat
  max_tokens : Int
  stream : Bool
  deriving DecidableEq, Repr

/-- One HTTP request as issued by `requests.post(url, json=payload,
timeout=30)` (source line 76). -/
structure Request where
  url : String
  payload : Payload
  timeoutSeconds : Nat
  deriving DecidableEq, Repr

/-- Endpoint URL construction (source line 65). -/
def mkUrl (s : Settings) : String :=
  "http://" ++ s.host ++ ":" ++ toString s.port ++ "/api/v0/completions"

/-- Payload construction (source lines 67-73): exactly the five fields, with
`stream` always `False`. -/
def mkPayload (settings : Settings) (prompt : String) (temperature : Rat)
    (max_tokens : Int) : Payload :=
  { model := settings.model
    prompt := prompt
    temperature := temperature
    max_tokens := max_tokens
    stream := false }

/-- The single request issued at source line 76: the URL, the payload, and
the fixed 30-second timeout. -/
def mkRequest (settings : Settings) (prompt : String) (temperature : Rat)
    (max_tokens : Int) : Request :=
  { url := mkUrl settings
    payload := mkPayload settings prompt temperature max_tokens
    timeoutSeconds := 30 }

/-- Body of the `try` block after `requests.post` returned a response
(source lines 77-96): `raise_for_status` raises `HTTPError` exactly for
status codes in `[400, 599]`; then the JSON body is decoded and the
`choices`/`usage` extraction of lines 82-93 runs, with `.ok none` modelling
the `return None` of the malformed-response branch (lines 94-96). -/
def handleResponse (status : Nat) (text : String) (json : Except String JVal) :
    Except PyExc (Option CompletionResult) := do
  if 400 ≤ status ∧ status < 600 then
    throw (.httpError status text)
  let result ← match json with
    | .ok v => pure v
    | .error m => throw (.other m)
  let cond ← do
    let hasC ← pyContains result "choices"
    if hasC then
      let cv ← pySubscript result "choices"
      let n ← pyLen cv
      pure (decide (n > 0))
    else
      pure false
  if cond then
    let cv ← pySubscript result "choices"
    let c0 ← pyIndexZero cv
    let textV ← pyGet c0 "text" (.jstr "")
    let usage ← pyGet result "usage" (.jobj [])
    let pt ← pyGet usage "prompt_tokens" (.jnum 0)
    let ct ← pyGet usage "completion_tokens" (.jnum 0)
    let tt ← pyGet usage "total_tokens" (.jnum 0)
    pure (some ⟨textV, pt, ct, tt⟩)
  else
    pure none

/-- Observable outcome of one call to `query_lm_studio`: the requests issued
to the HTTP layer, the returned value (`none` models Python `None`), and the
lines printed to stderr. -/
structure QueryOutcome where
  requests : List Request
  result : Option CompletionResult
  stderr : List String
  deriving Repr

/-- Outcome of the whole `try` block (source lines 75-96): the `requests.post`
call either raises (connection error, timeout, or any other exception) or
yields a response processed by `handleResponse`. -/
def tryBlock (http : HttpBehavior) : Except PyExc (Option CompletionResult) :=
  match http with
  | .connError => .error .connectionError
  | .timeout => .error .timeout
  | .exc m => .error (.other m)
  | .resp status text json => handleResponse status text json

/-- The `except` clauses of source lines 98-110, mapping each exception to
its stderr message(s) and a `None` return; a normal completion of the `try`
block passes its value through (lines 86-96). -/
def reportBody (req : Request) (body : Except PyExc (Option CompletionResult)) :
    QueryOutcome :=
  match body with
  | .ok (some r) => ⟨[req], some r, []⟩
  | .ok none => ⟨[req], none, ["Error: Unexpected response format from API"]⟩
  | .error .connectionError =>
      ⟨[req], none,
        ["Error: Could not connect to LM Studio at " ++ req.url,
         "Make sure LM Studio is running and accessible."]⟩
  | .error .timeout => ⟨[req], none, ["Error: Request timed out"]⟩
  | .error (.httpError st tx) =>
      ⟨[req], none, ["Error: HTTP " ++ toString st ++ " - " ++ tx]⟩
  | .error (.other m) => ⟨[req], none, ["Error: " ++ m]⟩

/-- Model of `query_lm_studio` (source lines 50-110). Builds the URL and
payload, issues exactly one POST with a 30-second timeout, and converts every
exception of the body into a printed message plus a `None` return, following
the four `except` clauses of lines 98-110. -/
def query_lm_studio (prompt : String) (settings : Settings) (temperature : Rat)
    (max_tokens : Int) (http : HttpBehavior) : QueryOutcome :=
  reportBody (mkRequest settings prompt temperature max_tokens) (tryBlock http)

/-! ## Main (source lines 113-177, the fragment the claims mention) -/

/-- Parsed command-line arguments (source lines 124-144): the prompt, the
temperature, and the optional `--max-tokens` override (default `None`). -/
structure Args where
  prompt : String
  temperature : Rat
  maxTokens : Option Int

/-- Observable outcome of `main`: a process exit with a code and the HTTP
requests issued along the way, or a crash from an unhandled exception. -/
inductive MainOutcome where
  | exited (code : Nat) (requests : List Request) (stderr : List String)
  | crashed (msg : String)
  deriving Repr

/-- Resolution of the effective token limit (source line 150): the explicit
command-line value when given, else the configured default. -/
def resolveMaxTokens (argMax : Option Int) (s : Settings) : Int :=
  match argMax with
  | some v => v
  | none => s.max_tokens

/-- Model of `main` (source lines 113-177): load settings (an exit there
happens before any HTTP request), resolve the token limit, query, and exit 0
on a completion, 1 on `None`. -/
def mainRun (env : Env) (args : Args) (http : HttpBehavior) : MainOutcome :=
  match load_settings env with
  | .exit msgs => .exited 1 [] msgs
  | .raised m => .crashed m
  | .ok s =>
      let mt := resolveMaxTokens args.maxTokens s
      let o := query_lm_studio args.prompt s args.temperature mt http
      match o.result with
      | some _ => .exited 0 o.requests o.stderr
      | none => .exited 1 o.requests o.stderr

/-! ## Helper definitions and lemmas -/

/-- Environment with the four variables the program reads bound as given. -/
def envOf (host port model mt : Option String) : Env := fun k =>
  if k = "LM_STUDIO_HOST" then host
  else if k = "LM_STUDIO_PORT" then port
  else if k = "LM_STUDIO_MODEL" then model
  else if k = "LM_STUDIO_MAX_TOKENS" then mt
  else none

lemma handleResponse_httpError (status : Nat) (text : String) (json : Except String JVal)
    (h : 400 ≤ status ∧ status < 600) :
    handleResponse status text json = .error (.httpError status text) := by
  simp [handleResponse, h, Bind.bind, Except.bind, throw, throwThe, MonadExceptOf.throw]

lemma handleResponse_success (status : Nat) (text : String)
    (fields c0 u : List (String × JVal)) (rest : List JVal)
    (hst : ¬ (400 ≤ status ∧ status < 600))
    (hch : jget fields "choices" = some (.jarr (.jobj c0 :: rest)))
    (hus : (jget fields "usage").getD (.jobj []) = .jobj u) :
    handleResponse status text (.ok (.jobj fields)) =
      .ok (some { text := (jget c0 "text").getD (.jstr "")
                  prompt_tokens := (jget u "prompt_tokens").getD (.jnum 0)
                  completion_tokens := (jget u "completion_tokens").getD (.jnum 0)
                  total_tokens := (jget u "total_tokens").getD (.jnum 0) }) := by
  simp [handleResponse, hst, pyContains, pySubscript, pyLen, pyIndexZero, pyGet, hch, hus,
    Bind.bind, Except.bind, Functor.map, Except.map, pure, Except.pure]

lemma handleResponse_malformed (status : Nat) (text : String)
    (fields : List (String × JVal))
    (hst : ¬ (400 ≤ status ∧ status < 600))
    (hch : jget fields "choices" = none ∨ jget fields "choices" = some (.jarr [])) :
    handleResponse status text (.ok (.jobj fields)) = .ok none := by
  rcases hch with hch | hch <;>
    simp [handleResponse, hst, pyContains, pySubscript, pyLen, hch,
      Bind.bind, Except.bind, pure, Except.pure]

lemma reportBody_requests (req : Request) (body : Except PyExc (Option CompletionResult)) :
    (reportBody req body).requests = [req] := by
  rcases body with e | a
  · cases e <;> rfl
  · cases a <;> rfl

lemma query_lm_studio_requests (prompt : String) (settings : Settings) (temperature : Rat)
    (max_tokens : Int) (http : HttpBehavior) :
    (query_lm_studio prompt settings temperature max_tokens http).requests =
      [mkRequest settings prompt temperature max_tokens] := by
  unfold query_lm_studio
  exact reportBody_requests _ _

lemma load_settings_ok_maxTokens (env : Env) (s : Settings)
    (h : load_settings env = .ok s) :
    pyInt? ((env "LM_STUDIO_MAX_TOKENS").getD "100") = some s.max_tokens := by
  unfold load_settings at h
  dsimp only at h
  split at h
  · simp at h
  · split at h
    · simp at h
    · split at h
      · simp at h
      · split at h
        · simp at h
        · rename_i heq
          injection h with h
          rw [← h]
          exact heq

lemma strContains_of_infix (s needle : String) (x y : List Char)
    (h : s.data = x ++ (needle.data ++ y)) : strContains s needle = true := by
  unfold strContains
  rw [h, List.any_eq_true]
  refine ⟨needle.data ++ y, ?_, ?_⟩
  · rw [List.mem_tails]
    exact ⟨x, rfl⟩
  · rw [List.isPrefixOf_iff_prefix]
    exact ⟨y, rfl⟩

lemma strContains_invalidPortParse (s : String) :
    strContains (invalidPortMsg (intValueErrorMsg s)) s = true := by
  apply strContains_of_infix _ _
    (("Error: Invalid LM_STUDIO_PORT - ").data ++
      ("invalid literal for int() with base 10: ").data ++ ("\x27").data)
    (("\x27").data)
  simp [invalidPortMsg, intValueErrorMsg, pyRepr, String.data_append]

/-! ## Claim theorems -/

/-- C1: for every 2xx response whose JSON body has a non-empty `choices`
array (its first element an object, and `usage` absent or an object),
`query_lm_studio` succeeds and returns `choices[0].text` (defaulting to `""`)
as the text, and the three token counts from the `usage` object, each
defaulting to `0` when absent. -/
theorem c1_success_extraction (prompt : String) (settings : Settings)
    (temperature : Rat) (max_tokens : Int) (status : Nat) (text : String)
    (fields c0 u : List (String × JVal)) (rest : List JVal)
    (h2xx : 200 ≤ status ∧ status ≤ 299)
    (hch : jget fields "choices" = some (.jarr (.jobj c0 :: rest)))
    (hus : (jget fields "usage").getD (.jobj []) = .jobj u) :
    (query_lm_studio prompt settings temperature max_tokens
        (.resp status text (.ok (.jobj fields)))).result =
      some { text := (jget c0 "text").getD (.jstr "")
             prompt_tokens := (jget u "prompt_tokens").getD (.jnum 0)
             completion_tokens := (jget u "completion_tokens").getD (.jnum 0)
             total_tokens := (jget u "total_tokens").getD (.jnum 0) } := by
  have hst : ¬ (400 ≤ status ∧ status < 600) := by omega
  unfold query_lm_studio tryBlock
  dsimp only
  rw [handleResponse_success status text fields c0 u rest hst hch hus]
  rfl

/-- C1 witness: the Paris example from the specification. -/
theorem c1_success_extraction_witness :
    (query_lm_studio "The capital of France is" ⟨"localhost", 1234, "gemma", 100⟩
        (7/10) 100
        (.resp 200 ""
          (.ok (.jobj [("choices", .jarr [.jobj [("text", .jstr "Paris")]]),
                       ("usage", .jobj [("prompt_tokens", .jnum 5),
                                        ("completion_tokens", .jnum 1),
                                        ("total_tokens", .jnum 6)])])))).result =
      some { text := .jstr "Paris", prompt_tokens := .jnum 5,
             completion_tokens := .jnum 1, total_tokens := .jnum 6 } :=
  c1_success_extraction "The capital of France is" ⟨"localhost", 1234, "gemma", 100⟩
    (7/10) 100 200 ""
    [("choices", .jarr [.jobj [("text", .jstr "Paris")]]),
     ("usage", .jobj [("prompt_tokens", .jnum 5), ("completion_tokens", .jnum 1),
                      ("total_tokens", .jnum 6)])]
    [("text", .jstr "Paris")]
    [("prompt_tokens", .jnum 5), ("completion_tokens", .jnum 1), ("total_tokens", .jnum 6)]
    [] (by omega) rfl rfl

/-- C5 amended: for every response with status code in `[400, 599]`,
`query_lm_studio` fails, printing the HTTP error message that carries the
status code and the response body (the model of `HttpError(status, body)`). -/
theorem c5_http_error (prompt : String) (settings : Settings) (temperature : Rat)
    (max_tokens : Int) (status : Nat) (text : String) (json : Except String JVal)
    (h : 400 ≤ status ∧ status < 600) :
    query_lm_studio prompt settings temperature max_tokens (.resp status text json) =
      ⟨[mkRequest settings prompt temperature max_tokens], none,
        ["Error: HTTP " ++ toString status ++ " - " ++ text]⟩ := by
  unfold query_lm_studio tryBlock
  dsimp only
  rw [handleResponse_httpError status text json h]
  rfl

/-- C5 witness: a 500 response with body "internal error" yields exactly
`HttpError(500, "internal error")`. -/
theorem c5_http_error_witness :
    query_lm_studio "p" ⟨"localhost", 1234, "gemma", 100⟩ (7/10) 100
        (.resp 500 "internal error" (.ok (.jobj []))) =
      ⟨[mkRequest ⟨"localhost", 1234, "gemma", 100⟩ "p" (7/10) 100], none,
        ["Error: HTTP 500 - internal error"]⟩ :=
  c5_http_error "p" ⟨"localhost", 1234, "gemma", 100⟩ (7/10) 100 500 "internal error"
    (.ok (.jobj [])) (by omega)

/-- C5 counterexample: a 304 response (non-2xx) is NOT reported as an HTTP
error — `raise_for_status` only raises for status codes in `[400, 599]`, so
the 304 body reaches JSON processing and the call fails with the
malformed-response message instead. -/
theorem c5_non2xx_counterexample :
    (query_lm_studio "p" ⟨"localhost", 1234, "gemma", 100⟩ (7/10) 100
        (.resp 304 "\x7b\x7d" (.ok (.jobj [])))).stderr =
      ["Error: Unexpected response format from API"] ∧
    (query_lm_studio "p" ⟨"localhost", 1234, "gemma", 100⟩ (7/10) 100
        (.resp 304 "\x7b\x7d" (.ok (.jobj [])))).stderr ≠
      ["Error: HTTP 304 - \x7b\x7d"] := by
  exact ⟨rfl, by decide⟩

/-- C6: for every 2xx response whose JSON object body lacks a `choices` key,
or maps it to an empty array, `query_lm_studio` fails with the
malformed-response message rather than succeeding. -/
theorem c6_malformed_response (prompt : String) (settings : Settings)
    (temperature : Rat) (max_tokens : Int) (status : Nat) (text : String)
    (fields : List (String × JVal))
    (h2xx : 200 ≤ status ∧ status ≤ 299)
    (hch : jget fields "choices" = none ∨ jget fields "choices" = some (.jarr [])) :
    query_lm_studio prompt settings temperature max_tokens
        (.resp status text (.ok (.jobj fields))) =
      ⟨[mkRequest settings prompt temperature max_tokens], none,
        ["Error: Unexpected response format from API"]⟩ := by
  have hst : ¬ (400 ≤ status ∧ status < 600) := by omega
  unfold query_lm_studio tryBlock
  dsimp only
  rw [handleResponse_malformed status text fields hst hch]
  rfl

/-- C6 witness: an empty `choices` array on a 200 response fails with the
malformed-response message. -/
theorem c6_malformed_response_witness :
    query_lm_studio "p" ⟨"localhost", 1234, "gemma", 100⟩ (7/10) 100
        (.resp 200 "" (.ok (.jobj [("choices", .jarr [])]))) =
      ⟨[mkRequest ⟨"localhost", 1234, "gemma", 100⟩ "p" (7/10) 100], none,
        ["Error: Unexpected response format from API"]⟩ :=
  c6_malformed_response "p" ⟨"localhost", 1234, "gemma", 100⟩ (7/10) 100 200 ""
    [("choices", .jarr [])] (by omega) (.inr rfl)

/-- C7: for every input and every behaviour of the HTTP layer,
`query_lm_studio` yields a definite outcome — either a completion result, or
`None` together with at least one printed error message — and an arbitrary
exception is converted to the catch-all `Other` message. -/
theorem c7_definite_outcome (prompt : String) (settings : Settings)
    (temperature : Rat) (max_tokens : Int) (http : HttpBehavior) (msg : String) :
    ((∃ r, (query_lm_studio prompt settings temperature max_tokens http).result = some r) ∨
      ((query_lm_studio prompt settings temperature max_tokens http).result = none ∧
        (query_lm_studio prompt settings temperature max_tokens http).stderr ≠ [])) ∧
    query_lm_studio prompt settings temperature max_tokens (.exc msg) =
      ⟨[mkRequest settings prompt temperature max_tokens], none, ["Error: " ++ msg]⟩ := by
  constructor
  · unfold query_lm_studio
    generalize tryBlock http = body
    rcases body with e | a
    · cases e <;> simp [reportBody]
    · cases a <;> simp [reportBody]
  · rfl

/-- C9: every call issues exactly one POST, with a 30-second timeout, to
`http://{host}:{port}/api/v0/completions`, whose JSON body consists exactly
of the fields `model`, `prompt`, `temperature`, `max_tokens` and `stream`,
with `stream` always `false`. -/
theorem c9_single_post (prompt : String) (settings : Settings) (temperature : Rat)
    (max_tokens : Int) (http : HttpBehavior) :
    (query_lm_studio prompt settings temperature max_tokens http).requests =
      [{ url := "http://" ++ settings.host ++ ":" ++ toString settings.port ++
            "/api/v0/completions",
         payload := { model := settings.model
                      prompt := prompt
                      temperature := temperature
                      max_tokens := max_tokens
                      stream := false },
         timeoutSeconds := 30 }] :=
  query_lm_studio_requests prompt settings temperature max_tokens http

/-- C10: on a 2xx response with a non-empty `choices` array whose first
element is an object without a `text` field (and `usage` absent or an
object), the call succeeds and the completion text is the empty string. -/
theorem c10_missing_text_empty (prompt : String) (settings : Settings)
    (temperature : Rat) (max_tokens : Int) (status : Nat) (text : String)
    (fields c0 u : List (String × JVal)) (rest : List JVal)
    (h2xx : 200 ≤ status ∧ status ≤ 299)
    (hch : jget fields "choices" = some (.jarr (.jobj c0 :: rest)))
    (htext : jget c0 "text" = none)
    (hus : (jget fields "usage").getD (.jobj []) = .jobj u) :
    (query_lm_studio prompt settings temperature max_tokens
        (.resp status text (.ok (.jobj fields)))).result =
      some { text := .jstr ""
             prompt_tokens := (jget u "prompt_tokens").getD (.jnum 0)
             completion_tokens := (jget u "completion_tokens").getD (.jnum 0)
             total_tokens := (jget u "total_tokens").getD (.jnum 0) } := by
  have hst : ¬ (400 ≤ status ∧ status < 600) := by omega
  unfold query_lm_studio tryBlock
  dsimp only
  rw [handleResponse_success status text fields c0 u rest hst hch hus, htext]
  rfl

/-- C10 witness: a 200 response whose only choice is an empty object yields
a successful result with empty text and all-zero usage. -/
theorem c10_missing_text_empty_witness :
    (query_lm_studio "p" ⟨"localhost", 1234, "gemma", 100⟩ (7/10) 100
        (.resp 200 "" (.ok (.jobj [("choices", .jarr [.jobj []])])))).result =
      some { text := .jstr "", prompt_tokens := .jnum 0,
             completion_tokens := .jnum 0, total_tokens := .jnum 0 } :=
  c10_missing_text_empty "p" ⟨"localhost", 1234, "gemma", 100⟩ (7/10) 100 200 ""
    [("choices", .jarr [.jobj []])] [] [] [] (by omega) rfl rfl rfl

/-- C2 counterexample: with the three required variables set and
`LM_STUDIO_MAX_TOKENS` bound to "abc", `load_settings` raises an unhandled
`ValueError` (the `int()` call at source line 40 sits outside any `try`),
so it neither returns settings nor fails with a classified error. -/
theorem c2_unhandled_counterexample :
    load_settings (envOf (some "h") (some "1234") (some "m") (some "abc")) =
      .raised (intValueErrorMsg "abc") := by
  rfl

/-- C2 amended: whenever `LM_STUDIO_MAX_TOKENS` is absent or parses as an
integer, `load_settings` yields a definite classified outcome — settings or
an error exit; the unhandled fault arises exactly when the variable is
present with a non-integer value. -/
theorem c2_load_classified (env : Env)
    (h : (pyInt? ((env "LM_STUDIO_MAX_TOKENS").getD "100")).isSome = true) :
    (∃ s, load_settings env = .ok s ∧
      pyInt? ((env "LM_STUDIO_MAX_TOKENS").getD "100") = some s.max_tokens) ∨
    (∃ msgs, load_settings env = .exit msgs) := by
  unfold load_settings
  dsimp only
  split
  · exact .inr ⟨_, rfl⟩
  · split
    · exact .inr ⟨_, rfl⟩
    · split
      · exact .inr ⟨_, rfl⟩
      · split
        · rename_i heq
          rw [heq] at h
          simp at h
        · rename_i heq
          exact .inl ⟨_, rfl, heq⟩

/-- C2 witness: with `LM_STUDIO_MAX_TOKENS` absent the loader succeeds, the
token-limit default string "100" parsing to the integer 100. -/
theorem c2_load_classified_witness :
    (∃ s, load_settings (envOf (some "h") (some "1234") (some "m") none) = .ok s ∧
      pyInt? (((envOf (some "h") (some "1234") (some "m") none)
        "LM_STUDIO_MAX_TOKENS").getD "100") = some s.max_tokens) ∨
    (∃ msgs, load_settings (envOf (some "h") (some "1234") (some "m") none) =
      .exit msgs) :=
  c2_load_classified (envOf (some "h") (some "1234") (some "m") none) rfl

/-- C3: whenever at least one required key is absent or empty,
`load_settings` exits with a message naming exactly the missing keys (the
filter of the three required keys by absence-or-emptiness), and the program
run issues no HTTP request. -/
theorem c3_missing_config (env : Env) (args : Args) (http : HttpBehavior)
    (h : missingKeys env ≠ []) :
    load_settings env = .exit [missingMsg (missingKeys env), missingHint] ∧
    mainRun env args http = .exited 1 [] [missingMsg (missingKeys env), missingHint] := by
  have hl : load_settings env = .exit [missingMsg (missingKeys env), missingHint] := by
    unfold load_settings
    dsimp only
    rw [if_pos h]
  refine ⟨hl, ?_⟩
  unfold mainRun
  rw [hl]

/-- C3 witness: with only `LM_STUDIO_HOST` missing, the exit message names
exactly that key and no request is issued. -/
theorem c3_missing_config_witness :
    load_settings (envOf none (some "1234") (some "m") none) =
      .exit [missingMsg ["LM_STUDIO_HOST"], missingHint] ∧
    mainRun (envOf none (some "1234") (some "m") none) ⟨"p", 7/10, none⟩ .timeout =
      .exited 1 [] [missingMsg ["LM_STUDIO_HOST"], missingHint] :=
  c3_missing_config (envOf none (some "1234") (some "m") none) ⟨"p", 7/10, none⟩
    .timeout (by decide)

/-- C4 counterexample: for the out-of-range port value "0", `load_settings`
fails with the invalid-port message, but that message (the fixed range text)
does not include the offending value "0". -/
theorem c4_port_message_counterexample :
    load_settings (envOf (some "h") (some "0") (some "m") none) =
      .exit [invalidPortMsg portRangeMsg] ∧
    strContains (invalidPortMsg portRangeMsg) "0" = false := by
  exact ⟨rfl, rfl⟩

/-- C4 amended: with the required keys present and non-empty, a port value
that does not parse as an integer exits with the invalid-port message, which
in that case does include the offending value; an integer port outside
`[1, 65535]` exits with the invalid-port message carrying the fixed
range text (which does not quote the value). -/
theorem c4_invalid_port (env : Env) (hm : missingKeys env = []) :
    (pyInt? ((env "LM_STUDIO_PORT").getD "") = none →
      load_settings env =
        .exit [invalidPortMsg (intValueErrorMsg ((env "LM_STUDIO_PORT").getD ""))] ∧
      strContains (invalidPortMsg (intValueErrorMsg ((env "LM_STUDIO_PORT").getD "")))
        ((env "LM_STUDIO_PORT").getD "") = true) ∧
    (∀ p, pyInt? ((env "LM_STUDIO_PORT").getD "") = some p → (p < 1 ∨ p > 65535) →
      load_settings env = .exit [invalidPortMsg portRangeMsg]) := by
  constructor
  · intro hp
    refine ⟨?_, strContains_invalidPortParse _⟩
    unfold load_settings
    dsimp only
    rw [if_neg (by simp [hm]), hp]
  · intro p hp hr
    unfold load_settings
    dsimp only
    rw [if_neg (by simp [hm]), hp]
    dsimp only
    rw [if_pos hr]

/-- C4 witness: the non-integer port value "abc" exits with the invalid-port
message, which includes "abc". -/
theorem c4_invalid_port_witness :
    load_settings (envOf (some "h") (some "abc") (some "m") none) =
      .exit [invalidPortMsg (intValueErrorMsg "abc")] ∧
    strContains (invalidPortMsg (intValueErrorMsg "abc")) "abc" = true :=
  (c4_invalid_port (envOf (some "h") (some "abc") (some "m") none) rfl).1 rfl

/-- C8: whenever settings load successfully, the single outgoing request
carries as `max_tokens` the explicit command-line value when one is given and
the configured default otherwise, and that configured default is 100 when the
optional environment key is absent. -/
theorem c8_max_tokens_resolution (env : Env) (args : Args) (http : HttpBehavior)
    (s : Settings) (h : load_settings env = .ok s) :
    (∃ code stderr,
      mainRun env args http =
        .exited code
          [mkRequest s args.prompt args.temperature (resolveMaxTokens args.maxTokens s)]
          stderr) ∧
    (∀ v, args.maxTokens = some v → resolveMaxTokens args.maxTokens s = v) ∧
    (args.maxTokens = none → resolveMaxTokens args.maxTokens s = s.max_tokens) ∧
    (env "LM_STUDIO_MAX_TOKENS" = none → s.max_tokens = 100) := by
  refine ⟨?_, ?_, ?_, ?_⟩
  · have hreq := query_lm_studio_requests args.prompt s args.temperature
      (resolveMaxTokens args.maxTokens s) http
    unfold mainRun
    rw [h]
    dsimp only
    cases ho : (query_lm_studio args.prompt s args.temperature
        (resolveMaxTokens args.maxTokens s) http).result with
    | none => exact ⟨1, _, by rw [hreq]⟩
    | some r => exact ⟨0, _, by rw [hreq]⟩
  · intro v hv
    rw [hv]
    rfl
  · intro hv
    rw [hv]
    rfl
  · intro hmt
    have h1 := load_settings_ok_maxTokens env s h
    rw [hmt] at h1
    have h2 : some (100 : Int) = some s.max_tokens := by
      rw [← h1]
      rfl
    exact (Option.some.inj h2).symm

/-- C8 witness: with the default limit configured as 100 and an explicit
`--max-tokens 42`, the issued request carries 42. -/
theorem c8_max_tokens_resolution_witness :
    (∃ code stderr,
      mainRun (envOf (some "h") (some "1234") (some "m") none)
        ⟨"p", 7/10, some 42⟩ .timeout =
        .exited code [mkRequest ⟨"h", 1234, "m", 100⟩ "p" (7/10)
          (resolveMaxTokens (some 42) ⟨"h", 1234, "m", 100⟩)] stderr) ∧
    (∀ v, (some 42 : Option Int) = some v →
      resolveMaxTokens (some 42) ⟨"h", 1234, "m", 100⟩ = v) ∧
    ((some 42 : Option Int) = none →
      resolveMaxTokens (some 42) ⟨"h", 1234, "m", 100⟩ =
        (Settings.mk "h" 1234 "m" 100).max_tokens) ∧
    ((envOf (some "h") (some "1234") (some "m") none) "LM_STUDIO_MAX_TOKENS" = none →
      (Settings.mk "h" 1234 "m" 100).max_tokens = 100) :=
  c8_max_tokens_resolution (envOf (some "h") (some "1234") (some "m") none)
    ⟨"p", 7/10, some 42⟩ .timeout ⟨"h", 1234, "m", 100⟩ rfl

end QueryLmStudio
